import Mathlib

/-!
Shallow embedding of `devlib/instrument/acmecape.py` (the ACME cape
instrument): the per-device CSV stream reader (`DeviceReader`), the
k-way merge in `AcmeCapeInstrument.get_data`, and the per-device
process-teardown loop in `AcmeCapeInstrument.stop`.

CSV cells are strings (Python's `csv` module never converts types).
Python exceptions are modelled with `Except PyErr`; the merge loop,
a `while` loop in the source, is modelled with explicit fuel so that
non-termination is observable as the `outOfFuel` outcome.
-/

namespace AcmeCape

/-- Python exceptions that the embedded code can raise.  The three
`HostError` raises in `stop` are split into structured constructors
(`abnormalExit` for the non-sentinel exit status at line 108,
`couldNotTerminate` for the post-kill failure at line 105,
`outputMissing` for the absent CSV at line 111). -/
inductive PyErr where
  | typeError
  | keyError
  | valueError
  | stopIteration
  | attributeError
  | abnormalExit (returncode : Int) (output : String)
  | couldNotTerminate (output : String)
  | outputMissing
  deriving DecidableEq, Repr

/-- One row as produced by `csv.DictReader`: the header fieldnames zipped
with the row's cell values (header names are assumed distinct, as they
are in the artifacts `iio-capture` writes). -/
abbrev Row := List (String × String)

/-- Python `dict` lookup `row[key]` on a `DictReader` row: the value at
`key`, or a `KeyError` when the column is absent. -/
def dictGet (row : Row) (key : String) : Except PyErr String :=
  match row.find? (fun p => p.1 = key) with
  | some p => Except.ok p.2
  | none => Except.error PyErr.keyError

/-- The content of one raw artifact file, as its list of CSV lines (each a
list of cells, leading whitespace already stripped as `skipinitialspace`
does).  A zero-length file is `[]`. -/
abbrev Artifact := List (List String)

/-- The data rows a `csv.DictReader` yields over an artifact: the first
line is consumed as the header, every later line becomes a dict.  An
empty file, or a file holding only a header line, yields no rows. -/
def csvRows (a : Artifact) : List Row :=
  match a with
  | [] => []
  | header :: recs => recs.map (fun rec => header.zip rec)

/-- State of `get_data`'s inner `DeviceReader` class: the current row
(`self._current_row`), the rows the underlying `csv.DictReader` iterator
has not yet yielded, the configured `columns`, and the `finished` flag. -/
structure DeviceReader where
  currentRow : Row
  remaining : List Row
  columns : List String
  finished : Bool
  deriving DecidableEq, Repr

/-- `DeviceReader.__init__` (lines 115-120): build the `DictReader` and
call `self._reader.next()` once for the first data row.  When the file
has no data row under the header (or no header at all) that `next()`
raises `StopIteration`, which propagates out of the constructor.  The
requested columns are stored but not checked against the header. -/
def DeviceReader.init (a : Artifact) (columns : List String) :
    Except PyErr DeviceReader :=
  match csvRows a with
  | [] => Except.error PyErr.stopIteration
  | r :: rest => Except.ok ⟨r, rest, columns, false⟩

/-- The `timestamp` property (lines 122-124):
`self._current_row['timestamp ms']` — the raw CSV cell, a string. -/
def DeviceReader.timestamp (r : DeviceReader) : Except PyErr String :=
  dictGet r.currentRow "timestamp ms"

/-- The `current_row` property (lines 126-128): the list comprehension
`[self._current_row[c] for c in self.columns]` — a Python list of the
cells for the configured columns, duplicates preserved. -/
def DeviceReader.current_row (r : DeviceReader) :
    Except PyErr (List String) :=
  r.columns.mapM (fun c => dictGet r.currentRow c)

/-- `pop_row` (lines 130-134): advance the iterator; when it raises
`StopIteration` the reader is marked `finished` and the current row is
left in place. -/
def DeviceReader.pop_row (r : DeviceReader) : DeviceReader :=
  match r.remaining with
  | [] => { r with finished := true }
  | row :: rest => { r with currentRow := row, remaining := rest }

/-- An instrument channel, as far as `get_data` consumes it: the device
it measures (`c.iio_device`), the source column of the raw artifact it
draws from (`c.iio_column`), and its display label (`c.label`).
The channel class itself lives in devlib's core, outside this file's
source; these are exactly the three attributes `get_data` reads. -/
structure Channel where
  iio_device : String
  iio_column : String
  label : String
  deriving DecidableEq, Repr

/-- Python `set(xs)` for the purposes of `get_data` (line 136): the
distinct elements.  CPython's iteration order over a set is arbitrary;
we keep first-occurrence order, which only matters for the (unreachable)
tie-break inside `min`. -/
def pySet (xs : List String) : List String :=
  xs.foldl (fun acc x => if x ∈ acc then acc else acc ++ [x]) []

/-- The `readers` dict of `get_data`, as an association list keyed by
device name. -/
abbrev Readers := List (String × DeviceReader)

/-- Python dict lookup `readers[device]` (line 163): `KeyError` when the
device has no reader. -/
def readersGet (rs : Readers) (d : String) : Except PyErr DeviceReader :=
  match rs.find? (fun p => p.1 = d) with
  | some p => Except.ok p.2
  | none => Except.error PyErr.keyError

/-- The reader-construction loop of `get_data` (lines 138-151) over
`zip(self.iio_devices, self.raw_data_files)`: a device with no active
channel is skipped; a device whose artifact is zero-length
(`os.stat(...).st_size == 0`) is logged and skipped; otherwise a
`DeviceReader` is built over the source columns of the device's active
channels (duplicates preserved), and a `StopIteration` from its
constructor propagates. -/
def buildReaders (chans : List Channel) :
    List (String × Artifact) → Except PyErr Readers
  | [] => Except.ok []
  | (device, art) :: rest =>
    if device ∈ pySet (chans.map (fun c => c.iio_device)) then
      if art.isEmpty then buildReaders chans rest
      else
        match DeviceReader.init art
            ((chans.filter (fun c => c.iio_device = device)).map
              (fun c => c.iio_column)) with
        | Except.error e => Except.error e
        | Except.ok r =>
          match buildReaders chans rest with
          | Except.error e => Except.error e
          | Except.ok rs => Except.ok ((device, r) :: rs)
    else buildReaders chans rest

/-- Indexing a Python list with a string subscript, as
`reader.current_row[channel.iio_column]` does at line 164:
`current_row` is a list, so this raises
`TypeError: list indices must be integers`, whatever the list and
whatever the key. -/
def pyListGetStr (_cells : List String) (_key : String) :
    Except PyErr String :=
  Except.error PyErr.typeError

/-- The row-construction loop of one merge step (lines 161-164): for
every active channel in order, look up the channel's reader in the
`readers` dict, evaluate its `current_row` property, and subscript the
resulting list with the channel's column name. -/
def buildRow (rs : Readers) : List Channel → Except PyErr (List String)
  | [] => Except.ok []
  | c :: cs => do
    let reader ← readersGet rs c.iio_device
    let cells ← reader.current_row
    let v ← pyListGetStr cells c.iio_column
    let rest ← buildRow rs cs
    pure (v :: rest)

/-- Lexicographic order on code-point lists, the order Python's `<`
imposes on strings. -/
def codeListLt : List Nat → List Nat → Bool
  | _, [] => false
  | [], _ :: _ => true
  | a :: as, b :: bs =>
    if a < b then true else if b < a then false else codeListLt as bs

/-- Python's `<` on two `str` values: lexicographic comparison of their
code points. -/
def pyStrLt (a b : String) : Bool :=
  codeListLt (a.data.map Char.toNat) (b.data.map Char.toNat)

/-- Python `min(xs, key=key)` (line 168): the first element whose key is
minimal; keys are compared with Python's `<`, which on the strings
returned by `DeviceReader.timestamp` is lexicographic; an exception
raised while evaluating a key propagates; `min` of an empty collection
is a `ValueError`. -/
def minByKey (key : String → Except PyErr String) :
    List String → Except PyErr String
  | [] => Except.error PyErr.valueError
  | x :: xs => do
    let kx ← key x
    let best ← xs.foldlM
      (fun (b : String × String) y => do
        let ky ← key y
        pure (if pyStrLt ky b.2 then (y, ky) else b))
      (x, kx)
    pure best.1

/-- The statement `active_devices.remove(reader_to_pop)` at line 171:
`active_devices` is a set of device-name strings and `reader_to_pop` is
a `DeviceReader` object, which is never an element of that set, so
`set.remove` raises `KeyError`. -/
def pySetRemoveReader (_active : List String) (_r : DeviceReader) :
    Except PyErr (List String) :=
  Except.error PyErr.keyError

/-- Outcome of running the merge `while` loop (and of `get_data` as a
whole) with a given amount of fuel: the loop finished normally, raised
an exception, or was still running when the fuel ran out.  Each
constructor carries the lines written to the output file so far. -/
inductive MergeOutcome where
  | completed (lines : List (List String))
  | raised (e : PyErr) (lines : List (List String))
  | outOfFuel (lines : List (List String))
  deriving DecidableEq, Repr

/-- The lines written to the combined output file, whatever the
outcome. -/
def MergeOutcome.written : MergeOutcome → List (List String)
  | MergeOutcome.completed w => w
  | MergeOutcome.raised _ w => w
  | MergeOutcome.outOfFuel w => w

/-- The merge `while` loop of `get_data` (lines 160-171), fuel-bounded.
Each iteration builds the output row (raising before the row is written
if that fails), writes it, selects `device_to_pop` as the
minimum-timestamp active device, fetches its reader, and — when that
reader is `finished` — calls `active_devices.remove(reader_to_pop)`.
Note the loop body never calls `pop_row`: the `readers` are threaded
through unchanged. -/
def mergeLoop (chans : List Channel) :
    Nat → Readers → List String → List (List String) → MergeOutcome
  | _, _, [], acc => MergeOutcome.completed acc
  | 0, _, _ :: _, acc => MergeOutcome.outOfFuel acc
  | fuel + 1, rs, active@(_ :: _), acc =>
    match buildRow rs chans with
    | Except.error e => MergeOutcome.raised e acc
    | Except.ok row =>
      let acc1 := acc ++ [row]
      match minByKey
          (fun d => (readersGet rs d).bind DeviceReader.timestamp)
          active with
      | Except.error e => MergeOutcome.raised e acc1
      | Except.ok device_to_pop =>
        match readersGet rs device_to_pop with
        | Except.error e => MergeOutcome.raised e acc1
        | Except.ok reader_to_pop =>
          if reader_to_pop.finished then
            match pySetRemoveReader active reader_to_pop with
            | Except.error e => MergeOutcome.raised e acc1
            | Except.ok active2 => mergeLoop chans fuel rs active2 acc1
          else mergeLoop chans fuel rs active acc1

/-- The instrument state `get_data` consumes: the configured device
list, the content of each device's raw artifact file (positionally
zipped, as `zip(self.iio_devices, self.raw_data_files)` does), and the
active channels in the caller's order. -/
structure InstrumentState where
  iio_devices : List String
  raw_data_files : List Artifact
  active_channels : List Channel
  deriving DecidableEq, Repr

/-- `AcmeCapeInstrument.get_data` (lines 113-173), fuel-bounded: build
the readers (an exception there propagates before the output file holds
anything), write the header row of active-channel labels (line 158),
then run the merge loop over `active_devices`. -/
def get_data (inst : InstrumentState) (fuel : Nat) : MergeOutcome :=
  match buildReaders inst.active_channels
      (inst.iio_devices.zip inst.raw_data_files) with
  | Except.error e => MergeOutcome.raised e []
  | Except.ok readers =>
    mergeLoop inst.active_channels fuel readers
      (pySet (inst.active_channels.map (fun c => c.iio_device)))
      [inst.active_channels.map (fun c => c.label)]

/-- Observable behaviour of one device's `iio-capture` process during
`stop`: the first one-second poll (counting from 0) at which
`process.poll()` reports an exit status, or `none` when the process is
still running after every poll of the grace window; the eventual exit
status; the content readable from the process's stdout pipe; and
whether the process would still be running after a `kill`. -/
structure ProcSpec where
  exitsAtPoll : Option Nat
  returncode : Int
  output : String
  aliveAfterKill : Bool
  deriving DecidableEq, Repr

/-- The poll loop `for _ in xrange(timeout_secs)` with
`timeout_secs = 10` (lines 93-98): true exactly when some poll within
the 10-poll grace window sees the process exited, i.e. the loop leaves
via `break` and its `else:` clause is skipped. -/
def exitsWithinWindow (p : ProcSpec) : Bool :=
  match p.exitsAtPoll with
  | some k => decide (k < 10)
  | none => false

/-- The `self.process` attribute.  No method of `AcmeCapeInstrument`
ever assigns `self.process` — `__init__` and `start` only assign
`self.processes` — so the attribute is absent in every reachable state
and each access raises `AttributeError`. -/
def selfProcess : Option ProcSpec := none

/-- One access to `self.process` (lines 100, 101, 106, 107): yields the
handle when the attribute exists, `AttributeError` otherwise. -/
def readSelfProcess : Except PyErr ProcSpec :=
  match selfProcess with
  | some p => Except.ok p
  | none => Except.error PyErr.attributeError

/-- Calls `stop` makes on process handles, recorded as a trace:
`process.terminate()` (line 92) and `self.process.kill()`
(line 101). -/
inductive StopAction where
  | terminate
  | kill
  deriving DecidableEq, Repr

/-- One iteration of the `stop` loop (lines 91-111) for one device:
terminate, poll for up to 10 seconds, and
- on exit within the window: fall through to the exit-status check,
  whose first step reads `self.process.returncode` (line 106);
- otherwise (the `for`-`else` branch, lines 100-105): drain
  `self.process.stdout` non-blockingly, kill `self.process`, raise if
  the device's own handle still polls as running, then fall through to
  the same exit-status check.
Both branches touch `self.process` before anything else observable, and
a successful device additionally requires `os.path.isfile` on its raw
artifact (line 110).  The returned trace records which process calls
were reached before an exception. -/
def stopDevice (p : ProcSpec) (artifactIsFile : Bool) :
    List StopAction × Except PyErr Unit :=
  let acts := [StopAction.terminate]
  if exitsWithinWindow p then
    match readSelfProcess with
    | Except.error e => (acts, Except.error e)
    | Except.ok sp =>
      if sp.returncode ≠ 15 then
        (acts, Except.error (PyErr.abnormalExit sp.returncode sp.output))
      else if artifactIsFile then (acts, Except.ok ())
      else (acts, Except.error PyErr.outputMissing)
  else
    match readSelfProcess with
    | Except.error e => (acts, Except.error e)
    | Except.ok sp =>
      let acts1 := acts ++ [StopAction.kill]
      if p.aliveAfterKill then
        (acts1, Except.error (PyErr.couldNotTerminate sp.output))
      else if sp.returncode ≠ 15 then
        (acts1, Except.error (PyErr.abnormalExit sp.returncode sp.output))
      else if artifactIsFile then (acts1, Except.ok ())
      else (acts1, Except.error PyErr.outputMissing)

/-- `AcmeCapeInstrument.stop` (lines 90-111): the per-device loop over
`zip(self.processes, self.raw_data_files)`; the first exception aborts
the remaining devices.  Each device is given as its process behaviour
paired with whether its raw artifact file exists. -/
def stop : List (ProcSpec × Bool) → List StopAction × Except PyErr Unit
  | [] => ([], Except.ok ())
  | (p, isFile) :: rest =>
    let (acts, r) := stopDevice p isFile
    match r with
    | Except.error e => (acts, Except.error e)
    | Except.ok _ =>
      let (acts2, r2) := stop rest
      (acts ++ acts2, r2)

/-- Reader states reachable through the source's own API: a state just
built by `DeviceReader.__init__`, or the result of a `pop_row` call on a
reachable state. -/
inductive Reachable : DeviceReader → Prop
  | base (a : Artifact) (cols : List String) (r : DeviceReader)
      (h : DeviceReader.init a cols = Except.ok r) : Reachable r
  | step (r : DeviceReader) (h : Reachable r) : Reachable r.pop_row

/-- A single-device instrument state: one device with a healthy two-row
artifact and one active channel on the `vbus mV` column. -/
def singleDeviceInst : InstrumentState :=
  ⟨["iio:device0"],
   [[["timestamp ms", "vbus mV"], ["0", "100"], ["10", "105"]]],
   [⟨"iio:device0", "vbus mV", "bus_iio:device0"⟩]⟩

/-- The spec's merge example: device A with timestamps 0, 10, 20 and
device B with timestamps 0, 5, 15, 25, one active channel each. -/
def twoDeviceInst : InstrumentState :=
  ⟨["A", "B"],
   [[["timestamp ms", "vbus mV"], ["0", "1"], ["10", "2"], ["20", "3"]],
    [["timestamp ms", "vbus mV"],
     ["0", "4"], ["5", "5"], ["15", "6"], ["25", "7"]]],
   [⟨"A", "vbus mV", "bus_A"⟩, ⟨"B", "vbus mV", "bus_B"⟩]⟩

/-- Degraded-retrieval state: device A has an active channel but a
zero-length artifact; device B is healthy. -/
def emptyArtifactInst : InstrumentState :=
  ⟨["A", "B"],
   [[],
    [["timestamp ms", "vbus mV"], ["0", "4"], ["5", "5"]]],
   [⟨"A", "vbus mV", "bus_A"⟩, ⟨"B", "vbus mV", "bus_B"⟩]⟩

/-- A reader whose current row carries timestamp cell "5". -/
def readerTs5 : DeviceReader :=
  ⟨[("timestamp ms", "5")], [], ["timestamp ms"], false⟩

/-- A reader whose current row carries timestamp cell "10". -/
def readerTs10 : DeviceReader :=
  ⟨[("timestamp ms", "10")], [], ["timestamp ms"], false⟩

/-- A reader configured with the same source column twice, as happens
when two channels of one device reference the same column. -/
def dupColumnReader : DeviceReader :=
  ⟨[("timestamp ms", "0"), ("vbus mV", "100")], [],
   ["vbus mV", "vbus mV"], false⟩

/-- An artifact whose header is `timestamp ms` only — in particular it
does not contain the column `vbus mV` — with one data row. -/
def artNoVbus : Artifact := [["timestamp ms"], ["0"]]

/-- A finished reader state, as produced by advancing past the last row
of a one-row artifact. -/
def finishedReader : DeviceReader :=
  ⟨[("timestamp ms", "0")], [], ["timestamp ms"], true⟩

/-- A process behaviour that exits immediately with the graceful-stop
sentinel status 15, next to an existing artifact file. -/
def gracefulProc : ProcSpec := ⟨some 0, 15, "", false⟩

/-- A process behaviour that exits immediately with a non-sentinel
status and diagnostic output on stdout. -/
def abnormalProc : ProcSpec := ⟨some 2, 1, "iio-capture error text", false⟩

/-- A process behaviour that never exits during the 10-poll grace
window and would survive even a kill. -/
def hungProc : ProcSpec := ⟨none, 0, "buffered capture output", true⟩

/-- Helper: a reader reachable through `__init__` and `pop_row` calls
can only be `finished` once its underlying iterator is exhausted. -/
theorem reachable_finished_remaining {r : DeviceReader}
    (h : Reachable r) : r.finished = true → r.remaining = [] := by
  induction h with
  | base a cols r0 h0 =>
    intro hf
    unfold DeviceReader.init at h0
    cases hrows : csvRows a with
    | nil => rw [hrows] at h0; exact absurd h0 (by simp)
    | cons x xs =>
      rw [hrows] at h0
      simp only [Except.ok.injEq] at h0
      rw [← h0] at hf
      exact absurd hf (by simp)
  | step r0 h0 ih =>
    intro hf
    cases hrem : r0.remaining with
    | nil => simp [DeviceReader.pop_row, hrem]
    | cons x xs =>
      exfalso
      have hf0 : r0.finished = true := by
        simpa [DeviceReader.pop_row, hrem] using hf
      have hnil := ih hf0
      rw [hrem] at hnil
      exact absurd hnil (by simp)

/-- C1.  The claim says every merge step writes one combined row, then
advances the reader of the minimum-timestamp device, removing a device
exactly when its just-advanced reader is finished.  In the code the
step never gets that far: building the row subscripts the list returned
by `current_row` with a column name, raising `TypeError` on the very
first step (and the loop body contains no `pop_row` call at all, so no
reader is ever advanced; its removal statement passes the reader object
to `set.remove` on a set of strings).  Evaluated on a healthy
single-device instrument, `get_data` raises `TypeError` with only the
header written, for every positive fuel. -/
theorem get_data_first_step_raises_typeerror :
    ∀ fuel : Nat, get_data singleDeviceInst (fuel + 1) =
      MergeOutcome.raised PyErr.typeError [["bus_iio:device0"]] :=
  fun _ => rfl

/-- C2.  The claim says the merge loop terminates on every finite set of
non-empty artifacts, and on the A = 0,10,20 / B = 0,5,15,25 example
completes with exactly 4 rows.  On that very example the loop never
completes for any amount of fuel: with fuel 0 it is still running, and
with any positive fuel it raises `TypeError` on the first step (no
reader is ever advanced, so even absent that error the active set could
never empty). -/
theorem get_data_merge_example_never_completes :
    ∀ (fuel : Nat) (rows : List (List String)),
      get_data twoDeviceInst fuel ≠ MergeOutcome.completed rows := by
  intro fuel rows h
  cases fuel with
  | zero => exact nomatch h
  | succ n => exact nomatch h

/-- C3.  The claim says `stop` succeeds on a device whose process exits
within the grace window with sentinel status 15, raises `AbnormalExit`
with the captured output on any other in-window status, and evaluates
each device's status on its own process handle.  The code evaluates the
exit status on `self.process` — an attribute no method ever assigns —
so both in-window cases raise `AttributeError` instead: here for a
process exiting with status 15 next to an existing artifact, and for a
process exiting with status 1. -/
theorem stop_in_window_raises_attributeerror :
    stop [(gracefulProc, true)] =
      ([StopAction.terminate], Except.error PyErr.attributeError) ∧
    stop [(abnormalProc, true)] =
      ([StopAction.terminate], Except.error PyErr.attributeError) :=
  ⟨rfl, rfl⟩

/-- C4.  The claim says a process that survives the 10-poll grace
window is unconditionally killed, its output drained non-blockingly,
and `stop` fails with `UngracefulShutdown` carrying that output.  In
the code the drain itself reads `self.process.stdout` — an attribute no
method ever assigns — so the grace-window-expired branch raises
`AttributeError` before any kill: the recorded trace holds the
`terminate` call and no `kill`. -/
theorem stop_hung_process_raises_before_kill :
    stop [(hungProc, true)] =
      ([StopAction.terminate], Except.error PyErr.attributeError) :=
  rfl

/-- C5.  The claim says `timestamp` returns the designated column as an
ordered numeric type so that the merge minimum is numeric.  The code
returns the raw CSV cell, a string, and `min` compares those strings
lexicographically: with current timestamps "5" and "10" it selects the
device holding "10", not the numerically smaller "5". -/
theorem min_timestamp_is_lexicographic :
    readerTs5.timestamp = Except.ok "5" ∧
    readerTs10.timestamp = Except.ok "10" ∧
    minByKey
      (fun d =>
        (readersGet [("A", readerTs5), ("B", readerTs10)] d).bind
          DeviceReader.timestamp)
      ["A", "B"] = Except.ok "B" :=
  ⟨rfl, rfl, rfl⟩

/-- C6.  The claim says each appended value is the channel's source
column of its device's current row, looked up by column name, with
repeated references to one column supported.  The reader itself does
support a duplicated column (its `current_row` lists the cell twice),
but the loop then subscripts that list with the column name, so
building the row raises `TypeError` instead of producing the values. -/
theorem row_lookup_raises_typeerror :
    dupColumnReader.current_row = Except.ok ["100", "100"] ∧
    buildRow [("A", dupColumnReader)]
      [⟨"A", "vbus mV", "power_1"⟩, ⟨"A", "vbus mV", "power_2"⟩] =
      Except.error PyErr.typeError :=
  ⟨rfl, rfl⟩

/-- C7.  The claim says a device with an active channel but zero-length
artifact is excluded and retrieval still succeeds for the others.  The
code skips building that device's reader but leaves the device in
`active_devices`, so the first merge step looks the missing reader up
in the `readers` dict and raises `KeyError`: retrieval fails instead of
degrading, for every positive fuel. -/
theorem get_data_empty_artifact_raises_keyerror :
    ∀ fuel : Nat, get_data emptyArtifactInst (fuel + 1) =
      MergeOutcome.raised PyErr.keyError [["bus_A", "bus_B"]] :=
  fun _ => rfl

/-- C8, counterexample.  The claim says opening fails whenever the
header does not contain every requested source column; but on an
artifact whose header holds only `timestamp ms`, requesting column
`vbus mV` opens successfully. -/
theorem reader_init_no_column_check :
    (("vbus mV" ∈ ["timestamp ms"]) → False) ∧
    artNoVbus = [["timestamp ms"], ["0"]] ∧
    DeviceReader.init artNoVbus ["vbus mV"] =
      Except.ok ⟨[("timestamp ms", "0")], [], ["vbus mV"], false⟩ :=
  ⟨by decide, rfl, rfl⟩

/-- C8, amended.  Opening a reader fails (with the constructor's
`StopIteration`) exactly when the artifact has no data row under its
header — no header row at all, or a header with no rows after it — and
never because of the requested columns, which are not validated at open
time. -/
theorem reader_init_error_iff (a : Artifact) (cols : List String) :
    (∃ e, DeviceReader.init a cols = Except.error e) ↔ a.length ≤ 1 := by
  cases a with
  | nil => simp [DeviceReader.init, csvRows]
  | cons hd recs =>
    cases recs with
    | nil => simp [DeviceReader.init, csvRows]
    | cons r rest => simp [DeviceReader.init, csvRows]

/-- Witness for the amended C8 at a concrete input: a header-only
artifact (one line, no data rows) makes the constructor fail. -/
theorem reader_init_error_iff_witness :
    ∃ e, DeviceReader.init [["timestamp ms"]] ["vbus mV"] =
      Except.error e :=
  (reader_init_error_iff [["timestamp ms"]] ["vbus mV"]).mpr (by decide)

/-- C9.  Calling `pop_row` on a reader that is already finished is a
no-op: no error, the current row is unchanged, and the `finished` flag
stays true — for every reader state reachable through the class's own
constructor and `pop_row`. -/
theorem pop_row_finished_noop {r : DeviceReader}
    (hr : Reachable r) (hf : r.finished = true) : r.pop_row = r := by
  have hrem := reachable_finished_remaining hr hf
  cases r with
  | mk cur rem cols fin =>
    simp only at hf hrem
    subst hf
    subst hrem
    rfl

/-- Witness for C9: a concretely reachable finished reader, on which
`pop_row` is the identity. -/
theorem pop_row_finished_noop_witness :
    finishedReader.pop_row = finishedReader :=
  pop_row_finished_noop
    (Reachable.step _
      (Reachable.base [["timestamp ms"], ["0"]] ["timestamp ms"] _ rfl))
    rfl

/-- Helper: whatever the merge loop does, the lines written to the
output file extend the lines already written when it started. -/
theorem mergeLoop_written_append (chans : List Channel) (rs : Readers) :
    ∀ (fuel : Nat) (active : List String) (acc : List (List String)),
      ∃ t, (mergeLoop chans fuel rs active acc).written = acc ++ t := by
  intro fuel
  induction fuel with
  | zero =>
    intro active acc
    cases active with
    | nil => exact ⟨[], by simp [mergeLoop, MergeOutcome.written]⟩
    | cons a as => exact ⟨[], by simp [mergeLoop, MergeOutcome.written]⟩
  | succ n ih =>
    intro active acc
    cases active with
    | nil => exact ⟨[], by simp [mergeLoop, MergeOutcome.written]⟩
    | cons a as =>
      simp only [mergeLoop]
      cases buildRow rs chans with
      | error e => exact ⟨[], by simp [MergeOutcome.written]⟩
      | ok row =>
        simp only
        cases minByKey
            (fun d => (readersGet rs d).bind DeviceReader.timestamp)
            (a :: as) with
        | error e => exact ⟨[row], by simp [MergeOutcome.written]⟩
        | ok device_to_pop =>
          simp only
          cases readersGet rs device_to_pop with
          | error e => exact ⟨[row], by simp [MergeOutcome.written]⟩
          | ok reader_to_pop =>
            simp only
            cases hfin : reader_to_pop.finished with
            | true =>
              exact ⟨[row], by
                simp [hfin, pySetRemoveReader, MergeOutcome.written]⟩
            | false =>
              obtain ⟨t, ht⟩ := ih (a :: as) (acc ++ [row])
              exact ⟨[row] ++ t, by simp [hfin, ht, List.append_assoc]⟩

/-- C10.  Whenever reader construction succeeds, the first line written
to the combined output is the list of the active channels' display
labels in the caller's order — computed from the channel list alone,
independently of which devices actually got readers, so labels of
devices excluded for a zero-length artifact are included. -/
theorem header_always_written (inst : InstrumentState) (fuel : Nat)
    (rs : Readers)
    (h : buildReaders inst.active_channels
        (inst.iio_devices.zip inst.raw_data_files) = Except.ok rs) :
    (get_data inst fuel).written.head? =
      some (inst.active_channels.map (fun c => c.label)) := by
  have hg : get_data inst fuel =
      mergeLoop inst.active_channels fuel rs
        (pySet (inst.active_channels.map (fun c => c.iio_device)))
        [inst.active_channels.map (fun c => c.label)] := by
    unfold get_data
    rw [h]
  obtain ⟨t, ht⟩ := mergeLoop_written_append inst.active_channels rs fuel
    (pySet (inst.active_channels.map (fun c => c.iio_device)))
    [inst.active_channels.map (fun c => c.label)]
  rw [hg, ht]
  rfl

/-- Witness for C10: with device A excluded for its zero-length
artifact, the header still carries both channels' labels. -/
theorem header_always_written_witness :
    (get_data emptyArtifactInst 3).written.head? =
      some ["bus_A", "bus_B"] :=
  header_always_written emptyArtifactInst 3
    [("B", ⟨[("timestamp ms", "0"), ("vbus mV", "4")],
       [[("timestamp ms", "5"), ("vbus mV", "5")]], ["vbus mV"], false⟩)]
    rfl

end AcmeCape
